import Mathlib

/-!
# Verification of the NASA_Chiss client-side orchestration layer

Shallow embedding of the job-orchestration and view-state synchronization
code of the Chiss dashboard frontend (`src/frontend/src/lib/url.ts`,
`src/frontend/src/lib/api.ts`, `src/frontend/src/App.tsx`, and the panels
that read credentials from local storage), together with theorems settling
the specification's testable properties.
-/

namespace Chiss

/-- JS `x || d` on an optional string: `null`/`undefined` and `""` are falsy,
any other string is returned unchanged. -/
def jsOr (o : Option String) (d : String) : String :=
  match o with
  | none => d
  | some s => if s = "" then d else s

/-! ## `URLSearchParams`

A query string is an ordered list of key–value pairs.  `qsGet` returns the
value of the first pair with the given key (`URLSearchParams.get`),
`qsDelete` removes every pair with the given key (`URLSearchParams.delete`),
and `qsSet` replaces the value of the first matching pair, removes the other
matching pairs, and appends the pair at the end when the key is absent
(`URLSearchParams.set`). -/

abbrev QueryString := List (String × String)

def qsGet : QueryString → String → Option String
  | [], _ => none
  | p :: rest, k => if p.1 = k then some p.2 else qsGet rest k

def qsDelete : QueryString → String → QueryString
  | [], _ => []
  | p :: rest, k => if p.1 = k then qsDelete rest k else p :: qsDelete rest k

def qsSet : QueryString → String → String → QueryString
  | [], k, v => [(k, v)]
  | p :: rest, k, v =>
    if p.1 = k then (k, v) :: qsDelete rest k else p :: qsSet rest k v

/-- Whether a pair with the given key occurs in the serialized query string
(the serialization `qs.toString()` renders exactly the pairs of the list, so a
key is present in it iff some pair carries that key). -/
def qsHasKey : QueryString → String → Bool
  | [], _ => false
  | p :: rest, k => p.1 = k || qsHasKey rest k

/-! ## `lib/url.ts` -/

/-- One entry of the `updates` record passed to `setQuery`: a key together
with `some v` for a string value and `none` for `undefined`. -/
abbrev Update := String × Option String

/-- The body of the `for` loop of `setQuery` in `lib/url.ts`:
`if (v === undefined || v === null || v === "") qs.delete(k); else qs.set(k, String(v));` -/
def applyUpdate (qs : QueryString) (u : Update) : QueryString :=
  match u.2 with
  | none => qsDelete qs u.1
  | some v => if v = "" then qsDelete qs u.1 else qsSet qs u.1 v

/-- `setQuery(updates)` in `lib/url.ts`, restricted to its effect on the query
string: it folds `applyUpdate` over the entries of the record (in entry
order) starting from the current query string. -/
def setQuery (qs : QueryString) (updates : List Update) : QueryString :=
  updates.foldl applyUpdate qs

/-- A sequence of `setQuery` calls, threaded through the address bar: each
call starts from the query string the previous call pushed. -/
def setQuerySeq (qs : QueryString) (calls : List (List Update)) : QueryString :=
  calls.foldl setQuery qs

/-- `getParam(name)` in `lib/url.ts`: `getQuery().get(name)`, with `null`
mapped to `undefined` (here: `none`). -/
def getParam (qs : QueryString) (name : String) : Option String :=
  qsGet qs name

/-- The last value written for key `k` by a flat sequence of updates:
`some w` when some update mentions `k` (with `w` the payload of the last such
update), `none` when no update mentions `k`. -/
def lastUpdate : List Update → String → Option (Option String)
  | [], _ => none
  | u :: us, k =>
    match lastUpdate us k with
    | some w => some w
    | none => if u.1 = k then some u.2 else none

/-- How `setQuery` interprets an update payload: empty string and
`undefined` mean deletion, everything else is stored verbatim. -/
def emptyToNone : Option String → Option String
  | none => none
  | some v => if v = "" then none else some v

/-! ### Query-string lemmas -/

theorem qsGet_qsDelete_self (qs : QueryString) (k : String) :
    qsGet (qsDelete qs k) k = none := by
  induction qs with
  | nil => rfl
  | cons p rest ih =>
    by_cases h : p.1 = k <;> simp [qsDelete, qsGet, h, ih]

theorem qsGet_qsDelete_ne (qs : QueryString) (k k' : String) (h : k' ≠ k) :
    qsGet (qsDelete qs k) k' = qsGet qs k' := by
  induction qs with
  | nil => rfl
  | cons p rest ih =>
    by_cases hp : p.1 = k
    · simp [qsDelete, qsGet, hp, Ne.symm h, ih]
    · by_cases hp' : p.1 = k' <;>
        simp [qsDelete, qsGet, hp, hp', h, Ne.symm h, ih]

theorem qsGet_qsSet_self (qs : QueryString) (k v : String) :
    qsGet (qsSet qs k v) k = some v := by
  induction qs with
  | nil => simp [qsSet, qsGet]
  | cons p rest ih =>
    by_cases h : p.1 = k <;> simp [qsSet, qsGet, h, ih]

theorem qsGet_qsSet_ne (qs : QueryString) (k v : String) (k' : String) (h : k' ≠ k) :
    qsGet (qsSet qs k v) k' = qsGet qs k' := by
  induction qs with
  | nil => simp [qsSet, qsGet, Ne.symm h]
  | cons p rest ih =>
    by_cases hp : p.1 = k
    · simp [qsSet, qsGet, hp, Ne.symm h, qsGet_qsDelete_ne rest k k' h]
    · by_cases hp' : p.1 = k' <;>
        simp [qsSet, qsGet, hp, hp', h, Ne.symm h, ih]

theorem qsHasKey_eq_isSome (qs : QueryString) (k : String) :
    qsHasKey qs k = (qsGet qs k).isSome := by
  induction qs with
  | nil => rfl
  | cons p rest ih =>
    by_cases h : p.1 = k <;> simp [qsHasKey, qsGet, h, ih]

/-- The effect of one `setQuery` update on a later read. -/
theorem getParam_applyUpdate (qs : QueryString) (u : Update) (k : String) :
    getParam (applyUpdate qs u) k =
      if u.1 = k then emptyToNone u.2 else getParam qs k := by
  rcases u with ⟨uk, uv⟩
  by_cases h : uk = k
  · subst h
    match uv with
    | none => simp [applyUpdate, getParam, emptyToNone, qsGet_qsDelete_self]
    | some v =>
      by_cases hv : v = "" <;>
        simp [applyUpdate, getParam, emptyToNone, hv, qsGet_qsDelete_self,
          qsGet_qsSet_self]
  · have h' : k ≠ uk := fun hk => h hk.symm
    match uv with
    | none => simp [applyUpdate, getParam, h, qsGet_qsDelete_ne qs uk k h']
    | some v =>
      by_cases hv : v = "" <;>
        simp [applyUpdate, getParam, h, hv, qsGet_qsDelete_ne qs uk k h',
          qsGet_qsSet_ne qs uk v k h']

/-- Reading after a flat sequence of updates returns the interpretation of the
last update that mentioned the key, and the original value when none did. -/
theorem getParam_foldl_applyUpdate (us : List Update) (qs : QueryString) (k : String) :
    getParam (us.foldl applyUpdate qs) k =
      (match lastUpdate us k with
       | none => getParam qs k
       | some w => emptyToNone w) := by
  induction us generalizing qs with
  | nil => simp [lastUpdate]
  | cons u us ih =>
    rw [List.foldl_cons, ih]
    cases hl : lastUpdate us k with
    | some w => simp [lastUpdate, hl]
    | none =>
      by_cases h : u.1 = k <;>
        simp [lastUpdate, hl, h, getParam_applyUpdate, h]

theorem setQuerySeq_eq_foldl_flatten (qs : QueryString) (calls : List (List Update)) :
    setQuerySeq qs calls = calls.flatten.foldl applyUpdate qs := by
  induction calls generalizing qs with
  | nil => rfl
  | cons c cs ih =>
    simp only [setQuerySeq, setQuery, List.foldl_cons, List.flatten_cons,
      List.foldl_append] at *
    exact ih (c.foldl applyUpdate qs)

/-! ## The live-log buffer (`App.tsx`, `run`) -/

/-- JS `arr.slice(-n)`: the last `n` elements of the array (the whole array
when it is shorter than `n`). -/
def sliceLast (l : List String) (n : Nat) : List String :=
  l.drop (l.length - n)

/-- The cap of the live-log buffer. -/
def LOG_CAP : Nat := 2000

/-- The `ws.onmessage` handler installed by `run` in `App.tsx`:
`setLogs(prev => [...prev, ev.data as string].slice(-2000))`. -/
def onMessage (prev : List String) (line : String) : List String :=
  sliceLast (prev ++ [line]) LOG_CAP

/-- The log buffer after a stream has delivered `lines` in order, starting
from the empty buffer installed by `setLogs([])` at submission. -/
def runStream (lines : List String) : List String :=
  lines.foldl onMessage []

theorem length_sliceLast_le (l : List String) (n : Nat) :
    (sliceLast l n).length ≤ n := by
  simp only [sliceLast, List.length_drop]
  omega

theorem sliceLast_of_length_le (l : List String) (n : Nat) (h : l.length ≤ n) :
    sliceLast l n = l := by
  simp [sliceLast, Nat.sub_eq_zero_of_le h]

/-- Re-capping an already capped buffer after appending more lines gives the
same window as capping the full sequence once. -/
theorem sliceLast_sliceLast_append (m rest : List String) (n : Nat) :
    sliceLast (sliceLast m n ++ rest) n = sliceLast (m ++ rest) n := by
  simp only [sliceLast, List.length_append, List.length_drop]
  rw [List.drop_append_eq_append_drop, List.drop_append_eq_append_drop,
    List.drop_drop]
  simp only [List.length_drop]
  have hA : m.length - n + (m.length - (m.length - n) + rest.length - n)
      = m.length + rest.length - n := by omega
  have hB : m.length - (m.length - n) + rest.length - n - (m.length - (m.length - n))
      = m.length + rest.length - n - m.length := by omega
  rw [hA, hB]

theorem foldl_onMessage_eq (lines : List String) (acc : List String)
    (hacc : acc.length ≤ LOG_CAP) :
    lines.foldl onMessage acc = sliceLast (acc ++ lines) LOG_CAP := by
  induction lines generalizing acc with
  | nil =>
    rw [List.foldl_nil, List.append_nil, sliceLast_of_length_le acc LOG_CAP hacc]
  | cons x xs ih =>
    rw [List.foldl_cons, ih (onMessage acc x) (length_sliceLast_le _ _)]
    show sliceLast (sliceLast (acc ++ [x]) LOG_CAP ++ xs) LOG_CAP = _
    rw [sliceLast_sliceLast_append]
    simp

/-! ## `lib/api.ts` -/

/-- The `JobInfo` interface of `lib/api.ts`. -/
structure JobInfo where
  job_id : String
  job_type : String
  state : String
  artifacts_dir : String
  note : Option String
deriving Repr, DecidableEq

/-- The data the client actually inspects in a parsed response body:
`detail_job_id` models `body?.detail?.job_id` (absent when the JSON carries no
such path), and `asJob` models the unchecked cast `(await r.json()) as JobInfo`
performed on the success path. -/
structure JsonBody where
  detail_job_id : Option String
  asJob : JobInfo
deriving Repr, DecidableEq

/-- An HTTP response as the client observes it: the status code and the
outcome of `r.json()` (`none` when the body is not valid JSON, in which case
`r.json()` rejects). -/
structure Response where
  status : Nat
  json : Option JsonBody
deriving Repr, DecidableEq

/-- `res.ok`: the status is in the inclusive range 200–299. -/
def responseOk (status : Nat) : Prop := 200 ≤ status ∧ status ≤ 299

instance (status : Nat) : Decidable (responseOk status) := by
  unfold responseOk; infer_instance

/-- The distinct rejection values `startJob` can produce. -/
inductive ApiError where
  /-- `throw new Error(\x60Duplicate running job (id=${body?.detail?.job_id||"?"})\x60)` -/
  | duplicateJob (id : String)
  /-- `throw new Error(\x60startJob failed: ${r.status}\x60)` -/
  | requestFailed (status : Nat)
  /-- the rejection of `await r.json()` on a body that is not valid JSON -/
  | bodyParseError
deriving Repr, DecidableEq

/-- `startJob(job_type, params)` in `lib/api.ts`, as a function of the
response the backend returns: on status 409 it parses the body and throws the
duplicate-job error carrying `body?.detail?.job_id || "?"`; on any other
non-2xx status it throws the generic `startJob failed: ${status}` error; on a
2xx status it returns the parsed body as the created `JobInfo`. -/
def startJob (r : Response) : Except ApiError JobInfo :=
  if r.status = 409 then
    match r.json with
    | none => .error .bodyParseError
    | some b => .error (.duplicateJob (jsOr b.detail_job_id "?"))
  else if responseOk r.status then
    match r.json with
    | none => .error .bodyParseError
    | some b => .ok b.asJob
  else .error (.requestFailed r.status)

/-- `OrchestratorStats` as returned by `orchStats()`. -/
structure Stats where
  queue_depth : Nat
  running : List String
  concurrency : Nat
deriving Repr, DecidableEq

/-! ## `App.tsx` local state and handlers -/

/-- The local React state of `App`, together with the job ids of the
WebSocket connections the component has opened.  The source never calls
`close()` on any of these sockets, so from the client's side every opened
connection stays live. -/
structure AppState where
  jobs : List JobInfo
  active : Option JobInfo
  logs : List String
  stats : Option Stats
  tab : String
  openSockets : List String
deriving Repr, DecidableEq

/-- The initial `App` state: `useState` seeds `jobs=[]`, `active=null`,
`logs=[]`, `stats=null`, `tab="discoveries"`, and no socket is open. -/
def app0 : AppState :=
  { jobs := []
    active := none
    logs := []
    stats := none
    tab := "discoveries"
    openSockets := [] }

/-- `run(job_type, params)` in `App.tsx`, as a function of the submission
response: `const j = await startJob(...); setActive(j); setLogs([]);` followed
by `const ws = logsSocket(j.job_id)`.  When `startJob` rejects, the exception
propagates out of `run` before any `set...` call, so the state is untouched
and no socket is opened; on success the job becomes active, the log buffer is
cleared and a new socket for it is opened — without closing any previously
opened socket (no `close()` call exists in the source). -/
def runJob (st : AppState) (resp : Response) : AppState × Except ApiError JobInfo :=
  match startJob resp with
  | .error e => (st, .error e)
  | .ok j =>
    ({ st with
        active := some j
        logs := []
        openSockets := st.openSockets ++ [j.job_id] }, .ok j)

/-- The `ws.onmessage` handler, lifted to the whole `App` state. -/
def wsOnMessage (st : AppState) (line : String) : AppState :=
  { st with logs := onMessage st.logs line }

/-- `ws.onclose = ()=> refresh()`, with
`refresh = async () => setJobs(await listJobs())`: the fetched list replaces
the local `jobs` wholesale and nothing else is touched. -/
def wsOnClose (st : AppState) (fetched : List JobInfo) : AppState :=
  { st with jobs := fetched }

/-- The backend requests the `onclose` handler issues. -/
inductive ApiRequest where
  | listJobs
  | orchStats
deriving Repr, DecidableEq

/-- `refresh()` performs exactly one `listJobs` request, and the `onclose`
handler does nothing but call `refresh()`. -/
def wsOnCloseRequests : List ApiRequest := [.listJobs]

/-- One tick of the poll loop in `App.tsx`:
`await refresh(); try{ setStats(await orchStats()); }catch{}`.
`jobsResult` and `statsResult` are the outcomes of the two fetches (errors
carry the failure).  A failed `refresh` rejects the tick before the stats
fetch runs and before any state is written; a failed stats fetch is swallowed
by the empty `catch`, after the job list has already been replaced. -/
def pollTick (st : AppState) (jobsResult : Except Nat (List JobInfo))
    (statsResult : Except Nat Stats) : AppState :=
  match jobsResult with
  | .error _ => st
  | .ok js =>
    match statsResult with
    | .error _ => { st with jobs := js }
    | .ok s => { st with jobs := js, stats := some s }

/-- A tick's pair of fetch outcomes. -/
abbrev TickOutcome := Except Nat (List JobInfo) × Except Nat Stats

/-- The poll loop over a sequence of tick outcomes: `setInterval` fires every
tick regardless of how earlier ticks ended, so the run is the plain fold of
`pollTick`. -/
def runPoll (st : AppState) (ticks : List TickOutcome) : AppState :=
  ticks.foldl (fun s t => pollTick s t.1 t.2) st

/-- The delay argument passed to `setInterval` in the poll effect. -/
def pollIntervalMs : Nat := 2000

/-! ## The browser history and the address-bar writes of the program -/

/-- The browser history: the stack of past entries (oldest first) plus the
current entry, each recorded as its query string.  `window.history.pushState`
pushes the current entry onto the stack and installs a new current entry;
`window.history.replaceState` overwrites the current entry and leaves the
stack unchanged, so the overwritten entry is no longer reachable via back. -/
structure History where
  back : List QueryString
  current : QueryString
deriving Repr, DecidableEq

def pushState (h : History) (qs : QueryString) : History :=
  { back := h.back ++ [h.current], current := qs }

def replaceState (h : History) (qs : QueryString) : History :=
  { back := h.back, current := qs }

/-- `setQuery` of `lib/url.ts` as a history mutation: it merges the updates
into the current query string and calls `history.pushState` with
`pathname + "?" + qs.toString() + hash`. -/
def setQueryHist (h : History) (updates : List Update) : History :=
  pushState h (setQuery h.current updates)

/-- A sequence of store writes. -/
def setQuerySeqHist (h : History) (calls : List (List Update)) : History :=
  calls.foldl setQueryHist h

/-- `Record` lookup, `params.tab` style: the value under a key of a JS record
modelled as an association list with unique keys. -/
def lookupRecord (params : List (String × String)) (k : String) : Option String :=
  qsGet params k

/-- The `setQuery` defined locally in `App.tsx` (lines 35–40): it sets every
given key on the current URL via `url.searchParams.set` (it never deletes a
key) and calls `window.history.pushState` directly — not going through the
`lib/url.ts` store. -/
def appSetQuery (h : History) (params : List (String × String)) : History :=
  pushState h (params.foldl (fun qs p => qsSet qs p.1 p.2) h.current)

/-- The `setTab(params.tab || "reliability")` line of the `App.tsx`
`setQuery`: the tab value the wrapper resolves from its argument. -/
def appSetQueryTab (params : List (String × String)) : String :=
  jsOr (lookupRecord params "tab") "reliability"

/-- The mount effect `const urlTab = getParam("tab") || "discoveries";
setTab(urlTab);` (`App.tsx` lines 30–33): the tab value seeded from the URL. -/
def mountTab (qs : QueryString) : String :=
  jsOr (getParam qs "tab") "discoveries"

/-- The URL-normalization effect run once on mount (`App.tsx` lines 42–57):
when `star` is truthy and `phase === "true"`, it re-sets `star`, `phase` and
`tab` (falling back to `"workbench"` when `tab` is absent or empty) on the
current query string and calls `window.history.replaceState` with the result;
otherwise it leaves the history untouched. -/
def normalizeEffect (h : History) : History :=
  let tab := getParam h.current "tab"
  let star := getParam h.current "star"
  let phase := getParam h.current "phase"
  match star with
  | none => h
  | some s =>
    if s ≠ "" ∧ phase = some "true" then
      replaceState h
        (qsSet (qsSet (qsSet h.current "star" s) "phase" "true")
          "tab" (jsOr tab "workbench"))
    else h

/-! ## Credential headers (`apiFetch`, `VettingPanel`, `SettingsBar`) -/

/-- The browser `localStorage`, restricted to the two keys the client code
reads: the value stored under `"chiss_api_key"` and the value stored under
`"apiKey"` (`none` models an absent key, for which `getItem` returns `null`). -/
structure LocalStorage where
  chiss_api_key : Option String
  apiKey : Option String
deriving Repr, DecidableEq

/-- Request headers, ordered; `Headers.set` replaces the value of an existing
header of that name, like `URLSearchParams.set`. -/
abbrev ReqHeaders := List (String × String)

def headersSet (hs : ReqHeaders) (k v : String) : ReqHeaders :=
  qsSet hs k v

/-- `apiFetch` in `lib/api.ts`, restricted to the headers of the outgoing
request: `const key = localStorage.getItem("chiss_api_key") || "";` then
`if (key) headers.set("X-API-Key", key);` on top of the caller's headers. -/
def apiFetchHeaders (store : LocalStorage) (initHeaders : ReqHeaders) : ReqHeaders :=
  let key := jsOr store.chiss_api_key ""
  if key ≠ "" then headersSet initHeaders "X-API-Key" key else initHeaders

/-- `VettingPanel.loadData`: `const apiKey = localStorage.getItem("apiKey") || "";`
then `fetch(..., { headers: { "X-API-Key": apiKey } })` — the header is always
sent, with the empty string when nothing is stored, and it is sourced from the
`"apiKey"` storage key, not from `"chiss_api_key"`. -/
def vettingLoadHeaders (store : LocalStorage) : ReqHeaders :=
  [("X-API-Key", jsOr store.apiKey "")]

/-- `SettingsBar.whoami`: `fetch(..., {headers: {"X-API-Key": key.trim()}})` —
the header is always sent, from the text-field state (seeded from
`localStorage.getItem("chiss_api_key") || ""`), even when it is empty. -/
def whoamiHeaders (fieldKey : String) : ReqHeaders :=
  [("X-API-Key", fieldKey.trim)]

/-! ## Concrete fixtures -/

def jobA : JobInfo :=
  { job_id := "JOB-A"
    job_type := "train-kepler-strict"
    state := "queued"
    artifacts_dir := "artifacts/a"
    note := none }

def jobB : JobInfo :=
  { job_id := "JOB-B"
    job_type := "benchmarks-compare"
    state := "queued"
    artifacts_dir := "artifacts/b"
    note := none }

def respA : Response :=
  { status := 200, json := some { detail_job_id := none, asJob := jobA } }

def respB : Response :=
  { status := 200, json := some { detail_job_id := none, asJob := jobB } }

def body409 : JsonBody := { detail_job_id := some "JOB-A", asJob := jobA }

def resp409 : Response := { status := 409, json := some body409 }

def resp500 : Response := { status := 500, json := none }

def resp409noId : Response :=
  { status := 409, json := some { detail_job_id := none, asJob := jobA } }

def resp409badBody : Response := { status := 409, json := none }

def storeEmpty : LocalStorage := { chiss_api_key := none, apiKey := none }

def storeCred : LocalStorage :=
  { chiss_api_key := some "SECRET-KEY", apiKey := none }

def histPhaseStar : History :=
  { back := [], current := [("star", "TIC12345"), ("phase", "true")] }

def histStarPhase : History :=
  { back := [], current := [("star", "TIC99"), ("phase", "true")] }

def exampleCalls : List (List Update) :=
  [[("tab", some "workbench"), ("star", some "TIC12345")],
   [("tab", some "reliability"), ("run", some "RUN-1")]]

/-! ## Claim theorems -/

/-- C1 (confirmed): view-state round-trip with merge semantics.  For every
starting query string and every sequence of `setQuery` calls, a subsequent
`getParam` of a key returns the last non-empty value written for that key;
a key last written as empty-string/`undefined` reads as absent, a key not
mentioned by any update keeps its original value, and a key is present in the
serialized query string exactly when its read is non-absent (so a key last
written empty is not serialized).  In particular the spec's example sequence
(write `tab=workbench, star=TIC12345` then `tab=reliability, run=RUN-1`)
ends with `tab=reliability`, `star=TIC12345`, `run=RUN-1`: disjoint keys of
the two calls both survive. -/
theorem C1_viewstate_roundtrip (qs : QueryString) (calls : List (List Update)) (k : String) :
    (getParam (setQuerySeq qs calls) k =
      (match lastUpdate calls.flatten k with
       | none => getParam qs k
       | some w => emptyToNone w))
    ∧ qsHasKey (setQuerySeq qs calls) k = (getParam (setQuerySeq qs calls) k).isSome
    ∧ getParam (setQuerySeq [] exampleCalls) "tab" = some "reliability"
    ∧ getParam (setQuerySeq [] exampleCalls) "star" = some "TIC12345"
    ∧ getParam (setQuerySeq [] exampleCalls) "run" = some "RUN-1" := by
  refine ⟨?_, qsHasKey_eq_isSome _ k, by decide, by decide, by decide⟩
  rw [setQuerySeq_eq_foldl_flatten]
  exact getParam_foldl_applyUpdate _ qs k

/-- C2 (confirmed): log-buffer sliding window.  After a stream has delivered
`lines` in order (instantiating `lines` at each prefix gives the state after
each delivery), the consumer's buffer has at most 2000 lines, its length is
`min lines.length 2000`, and its content is exactly the last
`min lines.length 2000` delivered lines in arrival order — the suffix of
`lines` past the first `lines.length - 2000` entries, so once at capacity
each append drops the oldest line. -/
theorem C2_log_buffer_window (lines : List String) :
    (runStream lines).length ≤ LOG_CAP
    ∧ (runStream lines).length = min lines.length LOG_CAP
    ∧ runStream lines = lines.drop (lines.length - LOG_CAP) := by
  have h : runStream lines = sliceLast lines LOG_CAP := by
    rw [runStream, foldl_onMessage_eq lines [] (by simp), List.nil_append]
  refine ⟨?_, ?_, ?_⟩
  · rw [h]; exact length_sliceLast_le _ _
  · rw [h]; simp only [sliceLast, List.length_drop]; omega
  · rw [h]; rfl

/-- C3 (confirmed): duplicate-job conflict handling.  When the submission
response has status 409 and its body is the JSON the backend contract
specifies for a conflict (carrying the non-empty id of the already-running
job of that type under `detail.job_id`), `startJob` rejects with the
distinguishable `duplicateJob` error carrying that id — not the generic
failure — and `run` leaves the local state untouched: `setActive` is never
reached, so no new local active entry is created.  For every response with
any other non-2xx status, `startJob` rejects with the generic request error
carrying the status code. -/
theorem C3_duplicate_conflict (r : Response) (b : JsonBody) (id : String)
    (h409 : r.status = 409) (hb : r.json = some b)
    (hid : b.detail_job_id = some id) (hne : id ≠ "") :
    startJob r = .error (.duplicateJob id)
    ∧ (∀ st : AppState, (runJob st r).1 = st)
    ∧ (∀ r' : Response, r'.status ≠ 409 → ¬ responseOk r'.status →
        startJob r' = .error (.requestFailed r'.status)) := by
  have hs : startJob r = .error (.duplicateJob id) := by
    simp [startJob, h409, hb, hid, jsOr, hne]
  refine ⟨hs, fun st => ?_, fun r' hne' hok => ?_⟩
  · simp [runJob, hs]
  · simp [startJob, hne', hok]

/-- Witness for `C3_duplicate_conflict`: a concrete 409 response carrying
`detail.job_id = "JOB-A"` and a concrete 500 response. -/
theorem C3_duplicate_conflict_witness :
    startJob resp409 = .error (.duplicateJob "JOB-A")
    ∧ (runJob app0 resp409).1 = app0
    ∧ startJob resp500 = .error (.requestFailed 500) :=
  ⟨(C3_duplicate_conflict resp409 body409 "JOB-A" rfl rfl rfl (by decide)).1,
   (C3_duplicate_conflict resp409 body409 "JOB-A" rfl rfl rfl (by decide)).2.1 app0,
   (C3_duplicate_conflict resp409 body409 "JOB-A" rfl rfl rfl (by decide)).2.2
     resp500 (by decide) (by decide)⟩

/-- C4 (the code contradicts the claim): after submitting job `JOB-A` and,
while its stream is live, submitting job `JOB-B`, the client has two open log
connections.  `run` opens a fresh WebSocket on every successful submission
and the source never calls `close()` on the previous one, so the previous
connection is not closed before the next is opened, two live connections
exist at a reachable state, and both installed `onmessage` handlers append
into the same shared `logs` buffer. -/
theorem C4_two_live_connections :
    ((runJob (runJob app0 respA).1 respB).1).openSockets = ["JOB-A", "JOB-B"]
    ∧ 2 ≤ ((runJob (runJob app0 respA).1 respB).1).openSockets.length := by
  refine ⟨by decide, by decide⟩

/-- C5 counterexample: the mount-time URL-normalization effect is a program
write to the address bar that replaces the current history entry instead of
pushing one.  On a URL with `star=TIC12345&phase=true` it rewrites the
current entry (adding `tab=workbench`) while the back stack stays empty, so
the prior entry is not reachable via back and the result differs from what a
`pushState` of the same URL would have produced — refuting the claim that
the program never calls a replacing history mutation and never mutates the
address bar outside the store. -/
theorem C5_history_replace_counterexample :
    (normalizeEffect histPhaseStar).back = []
    ∧ (normalizeEffect histPhaseStar).current ≠ histPhaseStar.current
    ∧ normalizeEffect histPhaseStar
        ≠ pushState histPhaseStar (normalizeEffect histPhaseStar).current := by
  refine ⟨by decide, by decide, by decide⟩

/-- C5 amended (proved): every write through the view-state store
(`lib/url.ts` `setQuery`) pushes a new history entry — after any sequence of
store writes the back stack has grown by exactly one entry per call (never a
replacement, which would keep the length) and the pre-existing stack is
preserved unchanged in front, with each call's pre-write current entry
pushed, so back-navigation restores prior view states.  However, the program
also mutates the address bar outside the store: `App`'s own `setQuery`
wrapper calls `pushState` directly, and the mount-time normalization effect
calls `replaceState` (see the counterexample). -/
theorem C5_store_always_pushes (h : History) (calls : List (List Update))
    (us : List Update) :
    (setQueryHist h us).back = h.back ++ [h.current]
    ∧ (∃ pushed : List QueryString,
        (setQuerySeqHist h calls).back = h.back ++ pushed
        ∧ pushed.length = calls.length) := by
  refine ⟨rfl, ?_⟩
  induction calls generalizing h with
  | nil => exact ⟨[], by simp [setQuerySeqHist]⟩
  | cons c cs ih =>
    obtain ⟨l, hl, hlen⟩ := ih (setQueryHist h c)
    refine ⟨[h.current] ++ l, ?_, by simp [hlen, Nat.add_comm]⟩
    show (setQuerySeqHist (setQueryHist h c) cs).back = _
    rw [hl]
    simp [setQueryHist, pushState]

/-- C6 (confirmed): stream-closure reconciliation.  The `onclose` handler
issues exactly one job-list fetch (`refresh()` performs a single `listJobs`
request), and applying its result replaces the local job list wholesale with
the fetched list — no incremental merge — while every other piece of local
state (`active`, `logs`, `stats`, `tab`, the open sockets) is untouched. -/
theorem C6_onclose_reconciliation (st : AppState) (fetched : List JobInfo) :
    wsOnCloseRequests = [ApiRequest.listJobs]
    ∧ (wsOnClose st fetched).jobs = fetched
    ∧ (wsOnClose st fetched).active = st.active
    ∧ (wsOnClose st fetched).logs = st.logs
    ∧ (wsOnClose st fetched).stats = st.stats
    ∧ (wsOnClose st fetched).tab = st.tab
    ∧ (wsOnClose st fetched).openSockets = st.openSockets :=
  ⟨rfl, rfl, rfl, rfl, rfl, rfl, rfl⟩

/-- C7 (confirmed): poll-tick error independence.  A stats-fetch failure on a
tick does not prevent that same tick's job-list refresh (the job list is
still replaced with the fetched value, the stats are simply left as they
were); a tick whose job-list fetch rejects leaves the state untouched; no
failure ever cancels the loop — `runPoll` still processes every subsequent
tick, so a later tick with a successful job-list fetch lands regardless of
any earlier failures; and the interval passed to `setInterval` is the
constant 2000 ms, with no backoff. -/
theorem C7_poll_tick_independence (st : AppState) :
    (∀ js e, (pollTick st (.ok js) (.error e)).jobs = js
        ∧ (pollTick st (.ok js) (.error e)).stats = st.stats)
    ∧ (∀ e sr, pollTick st (.error e) sr = st)
    ∧ (∀ ticks t, runPoll st (ticks ++ [t]) = pollTick (runPoll st ticks) t.1 t.2)
    ∧ (∀ ticks js sr, (runPoll st (ticks ++ [(.ok js, sr)])).jobs = js)
    ∧ pollIntervalMs = 2000 := by
  refine ⟨fun js e => ⟨rfl, rfl⟩, fun e sr => rfl, fun ticks t => ?_,
    fun ticks js sr => ?_, rfl⟩
  · simp [runPoll, List.foldl_append]
  · have h : runPoll st (ticks ++ [(.ok js, sr)])
        = pollTick (runPoll st ticks) (.ok js) sr := by
      simp [runPoll, List.foldl_append]
    rw [h]
    cases sr <;> rfl

/-- C8 counterexample: with nothing stored, `VettingPanel.loadData` still
sends the `X-API-Key` header (with the empty string as value) instead of
omitting it; and with a credential stored under the persistent key
`"chiss_api_key"`, the panel ignores it and still sends the empty header,
because it reads the different storage key `"apiKey"`.  `apiFetch`, by
contrast, omits the header in both of those situations or attaches the stored
credential.  This refutes the claim that every outbound request attaches the
header sourced from the one persistent local-storage key and omits it when no
credential is stored. -/
theorem C8_counterexample :
    vettingLoadHeaders storeEmpty = [("X-API-Key", "")]
    ∧ qsHasKey (vettingLoadHeaders storeEmpty) "X-API-Key" = true
    ∧ vettingLoadHeaders storeCred = [("X-API-Key", "")]
    ∧ apiFetchHeaders storeEmpty [] = []
    ∧ apiFetchHeaders storeCred [] = [("X-API-Key", "SECRET-KEY")] := by
  refine ⟨by decide, by decide, by decide, by decide, by decide⟩

/-- C8 amended (proved): requests sent through `apiFetch` attach the
`X-API-Key` header sourced from the `"chiss_api_key"` local-storage key, and
omit the header (leaving the caller's headers untouched, an anonymous
request, never an error) when no credential — or an empty one — is stored.
But not every outbound request goes through `apiFetch`: `VettingPanel`
(like the light-curve, phase-fold and diagnostics panels) reads the different
storage key `"apiKey"` and always sends the header, with the empty string
when nothing is stored there, and `SettingsBar`'s `whoami` always sends the
header from its text-field state. -/
theorem C8_apiFetch_header (store : LocalStorage) (init : ReqHeaders) :
    (∀ k, store.chiss_api_key = some k → k ≠ "" →
        apiFetchHeaders store init = headersSet init "X-API-Key" k
        ∧ qsGet (apiFetchHeaders store init) "X-API-Key" = some k)
    ∧ (store.chiss_api_key = none ∨ store.chiss_api_key = some "" →
        apiFetchHeaders store init = init)
    ∧ vettingLoadHeaders store = [("X-API-Key", jsOr store.apiKey "")]
    ∧ (∀ fieldKey, whoamiHeaders fieldKey = [("X-API-Key", fieldKey.trim)]) := by
  refine ⟨?_, ?_, rfl, fun fieldKey => rfl⟩
  · intro k hk hne
    have hkey : jsOr store.chiss_api_key "" = k := by simp [jsOr, hk, hne]
    refine ⟨?_, ?_⟩
    · simp [apiFetchHeaders, hkey, hne]
    · simp [apiFetchHeaders, hkey, hne, headersSet, qsGet_qsSet_self]
  · intro hk
    rcases hk with hk | hk <;> simp [apiFetchHeaders, jsOr, hk]

/-- Witness for `C8_apiFetch_header`: with `"SECRET-KEY"` stored under
`"chiss_api_key"` the header is attached with that value; with empty storage
the caller's headers pass through unchanged. -/
theorem C8_apiFetch_header_witness :
    qsGet (apiFetchHeaders storeCred []) "X-API-Key" = some "SECRET-KEY"
    ∧ apiFetchHeaders storeEmpty [("Content-Type", "application/json")]
        = [("Content-Type", "application/json")] :=
  ⟨((C8_apiFetch_header storeCred []).1 "SECRET-KEY" rfl (by decide)).2,
   (C8_apiFetch_header storeEmpty [("Content-Type", "application/json")]).2.1
     (Or.inl rfl)⟩

/-- C9 counterexample: the cited resolution sites disagree on the landing-tab
value substituted for an absent `tab` key — the mount-seeding effect resolves
it to `"discoveries"`, `App`'s `setQuery` wrapper resolves it to
`"reliability"`, and the mount-time normalization effect falls back to
`"workbench"` — so there is no single fixed landing-tab value used at every
resolution site, refuting the claim. -/
theorem C9_counterexample :
    mountTab [] = "discoveries"
    ∧ appSetQueryTab [] = "reliability"
    ∧ mountTab [] ≠ appSetQueryTab []
    ∧ getParam (normalizeEffect histStarPhase).current "tab" = some "workbench" := by
  refine ⟨by decide, by decide, by decide, by decide⟩

/-- C9 amended (proved): whenever the `tab` key is absent, each resolution
site substitutes a fixed default for it, but the default is site-specific
rather than one shared landing-tab value: `"discoveries"` at the
mount-seeding effect, `"reliability"` in `App`'s `setQuery` wrapper, and
`"workbench"` in the normalization effect; a present non-empty `tab` value is
used unchanged at each site, and no key other than `tab` is given an implicit
default in this code. -/
theorem C9_tab_defaults (qs : QueryString) (params : List (String × String))
    (h : History) (v : String) (hv : v ≠ "") :
    (getParam qs "tab" = none → mountTab qs = "discoveries")
    ∧ (getParam qs "tab" = some v → mountTab qs = v)
    ∧ (lookupRecord params "tab" = none → appSetQueryTab params = "reliability")
    ∧ (lookupRecord params "tab" = some v → appSetQueryTab params = v)
    ∧ (∀ s, getParam h.current "star" = some s → s ≠ "" →
        getParam h.current "phase" = some "true" →
        getParam h.current "tab" = none →
        getParam (normalizeEffect h).current "tab" = some "workbench") := by
  refine ⟨?_, ?_, ?_, ?_, ?_⟩
  · intro he; simp [mountTab, he, jsOr]
  · intro he; simp [mountTab, he, jsOr, hv]
  · intro he; simp [appSetQueryTab, he, jsOr]
  · intro he; simp [appSetQueryTab, he, jsOr, hv]
  · intro s hs hsne hp ht
    simp only [normalizeEffect, hs, hp, ht]
    rw [if_pos ⟨hsne, trivial⟩]
    simp [replaceState, getParam, qsGet_qsSet_self, jsOr]

/-- Witness for `C9_tab_defaults`: concrete inputs exercising the present-tab
case, the absent-tab case of the wrapper, and the normalization fallback. -/
theorem C9_tab_defaults_witness :
    mountTab [("tab", "compare")] = "compare"
    ∧ appSetQueryTab [] = "reliability"
    ∧ getParam (normalizeEffect histStarPhase).current "tab" = some "workbench" :=
  ⟨(C9_tab_defaults [("tab", "compare")] [] histStarPhase "compare"
      (by decide)).2.1 (by decide),
   (C9_tab_defaults [] [] histStarPhase "compare" (by decide)).2.2.1 (by decide),
   (C9_tab_defaults [] [] histStarPhase "compare" (by decide)).2.2.2.2
     "TIC99" (by decide) (by decide) (by decide) (by decide)⟩

/-- C10 (confirmed): 409-body edge cases of `startJob`.  For a 409 response
whose body parses as JSON but lacks `detail.job_id` (or carries it as the
falsy empty string), `startJob` still reports the duplicate-job condition,
substituting the placeholder `"?"` for the id.  For a 409 response whose body
is not valid JSON, `startJob` instead rejects with the body-parse error, not
with the duplicate-job condition. -/
theorem C10_startJob_409_body_edge (r : Response) (h409 : r.status = 409) :
    (∀ b, r.json = some b → b.detail_job_id = none →
        startJob r = .error (.duplicateJob "?"))
    ∧ (∀ b, r.json = some b → b.detail_job_id = some "" →
        startJob r = .error (.duplicateJob "?"))
    ∧ (r.json = none →
        startJob r = .error .bodyParseError
        ∧ ∀ id, startJob r ≠ .error (.duplicateJob id)) := by
  refine ⟨?_, ?_, ?_⟩
  · intro b hb hid; simp [startJob, h409, hb, hid, jsOr]
  · intro b hb hid; simp [startJob, h409, hb, hid, jsOr]
  · intro hj
    have hs : startJob r = .error .bodyParseError := by
      simp [startJob, h409, hj]
    refine ⟨hs, fun id => ?_⟩
    rw [hs]
    simp

/-- Witness for `C10_startJob_409_body_edge`: a concrete 409 response whose
JSON body lacks `detail.job_id` and a concrete 409 response whose body is not
valid JSON. -/
theorem C10_startJob_409_body_edge_witness :
    startJob resp409noId = .error (.duplicateJob "?")
    ∧ startJob resp409badBody = .error .bodyParseError :=
  ⟨(C10_startJob_409_body_edge resp409noId rfl).1 _ rfl rfl,
   ((C10_startJob_409_body_edge resp409badBody rfl).2.2 rfl).1⟩

end Chiss
